import Mathlib

/-!
Verification development for the Collectify dashboard (files `main.py` and
`todo.py`): a shallow embedding of the spreadsheet-backed todo tracker and the
tool-catalog reader, with theorems about the row-indexing scheme, the update
frame, the creation shape, error handling, filtering and appending.

A worksheet is modelled as a list of rows, each row a list of string cells
(the spreadsheet is stringly typed).  Row and column numbers coming from the
code are 1-based, as in the spreadsheet API.
-/

set_option autoImplicit false

namespace Collectify

/-- A spreadsheet row: a list of string cells. -/
abbrev Row := List String

/-- A worksheet: a list of rows. -/
abbrev Sheet := List Row

/-- A Python dict with string keys and string values, as an association list
(first binding of a key wins, as `dict.get` does). -/
abbrev Record := List (String × String)

/-- `r.get(k, d)` on a Python dict: the value bound to `k`, or `d` when `k`
is absent. -/
def dictGet (r : Record) (k d : String) : String :=
  match r.find? (fun p => p.1 == k) with
  | some p => p.2
  | none => d

/-- `r.get(k)` on a Python dict: `some` value, or `none` when `k` is absent. -/
def dictGetOpt (r : Record) (k : String) : Option String :=
  (r.find? (fun p => p.1 == k)).map (fun p => p.2)

/-- The row of `sheet` at 1-based position `r` (empty row when out of range). -/
def rowAt (sheet : Sheet) (r : Nat) : Row :=
  sheet.getD (r - 1) []

/-- `sheet.cell(r, c).value`: the cell at 1-based row `r`, column `c`
(empty string when out of range). -/
def cellValue (sheet : Sheet) (r c : Nat) : String :=
  (rowAt sheet r).getD (c - 1) ""

/-- The range update of columns A..E of row `r` with five `cells`:
overwrite those five cells, leaving every other row and the cells of row `r`
beyond column E untouched. -/
def updateRangeAE (sheet : Sheet) (r : Nat) (cells : Row) : Sheet :=
  sheet.set (r - 1) (cells ++ (rowAt sheet r).drop 5)

/-- `GoogleSheetClient.add_todo` (success path of `todo.py`): append the row
`[todo_item, priority, date_added, "", "Incomplete"]`.  `dateAdded` stands for
`datetime.datetime.now().strftime(...)`, the current date at creation. -/
def add_todo (sheet : Sheet) (todoItem priority dateAdded : String) : Sheet :=
  sheet ++ [[todoItem, priority, dateAdded, "", "Incomplete"]]

/-- `GoogleSheetClient.update_todo` (success path): re-read the date-added
cell (row `r`, column 3) and rewrite columns A..E of row `r` with
`[todo_item, priority, date_added, date_completed, status]`.  `dateCompleted`
stands for the already-formatted string the Python code produces. -/
def update_todo (sheet : Sheet) (r : Nat)
    (todoItem priority dateCompleted status : String) : Sheet :=
  updateRangeAE sheet r
    [todoItem, priority, cellValue sheet r 3, dateCompleted, status]

/-- `GoogleSheetClient.delete_todo` (success path): `sheet.delete_rows(r)`
removes the 1-based row `r`. -/
def delete_todo (sheet : Sheet) (r : Nat) : Sheet :=
  sheet.eraseIdx (r - 1)

/-- `TodoApp.create_todo` delegates to `add_todo`. -/
def create_todo (sheet : Sheet) (todoItem priority dateAdded : String) : Sheet :=
  add_todo sheet todoItem priority dateAdded

/-- `TodoApp.modify_todo` delegates to `update_todo`. -/
def modify_todo (sheet : Sheet) (r : Nat)
    (todoItem priority dateCompleted status : String) : Sheet :=
  update_todo sheet r todoItem priority dateCompleted status

/-- `TodoApp.remove_todo` delegates to `delete_todo`. -/
def remove_todo (sheet : Sheet) (r : Nat) : Sheet :=
  delete_todo sheet r

/-- `TodoApp.list_todos`: when the sheet has a header row and at least one
data row, return `(data[0], data[1:])`; otherwise `([], [])`. -/
def list_todos (data : Sheet) : List String × List Row :=
  if 1 < data.length then (data.headD [], data.tail) else ([], [])

/-- The display label of the Update/Delete select boxes: the first cell of
the row (the todo text) and the fifth cell (the status), joined by a
vertical bar, as the f-string of the code builds it. -/
def label (t : Row) : String :=
  t.getD 0 "" ++ " | " ++ t.getD 4 ""

/-- The entries of the `row_options` dict comprehension, starting the
enumeration at data index `k`: the row at data index `k + i` is paired with
absolute spreadsheet row `k + i + 2`. -/
def rowOptionsAux (k : Nat) : List Row → List (String × Nat)
  | [] => []
  | t :: ts => (label t, k + 2) :: rowOptionsAux (k + 1) ts

/-- The `row_options` dict comprehension: the label of the todo at data
index `i` maps to `i + 2`; kept as the insertion-ordered entry list of the
comprehension. -/
def rowOptions (todos : List Row) : List (String × Nat) :=
  rowOptionsAux 0 todos

/-- `row_options[selected_row_str]`: a Python dict keeps the value of the
LAST insertion for a repeated key, so lookup returns the last matching
entry. -/
def selectRow (todos : List Row) (lbl : String) : Option Nat :=
  (((rowOptions todos).filter (fun p => p.1 == lbl)).getLast?).map (fun p => p.2)

/-! ### The remote-call layer: `try ... except APIError` wrappers

Each client method issues one or two remote calls, catches `APIError`,
surfaces one `st.error` message, and simply returns (no retry, no recovery).
An operation is embedded as a function of the responses of the remote calls
it makes; the result records the requests issued, the user-visible error
messages shown, and the value (or sheet state) the operation ends with. -/

/-- An error raised by the remote spreadsheet service (`gspread.exceptions.APIError`);
the payload is an uninterpreted message. -/
structure APIError where
  msg : String
deriving DecidableEq, Repr

/-- A remote request issued by a client method. -/
inductive Req where
  | getAllValues
  | appendRow (r : Row)
  | cellRead (row col : Nat)
  | updateRange (row : Nat) (cells : Row)
  | deleteRows (row : Nat)
  | getAllRecords
  | rowValues (n : Nat)
deriving DecidableEq, Repr

/-- The observable outcome of one client method call: the remote requests it
issued, the `st.error` messages it surfaced, and the value it returned
(for mutating methods, the resulting sheet state). -/
structure ClientResult (α : Type) where
  requests : List Req
  errors : List String
  value : α
deriving Repr

/-- `GoogleSheetClient.read_all_values` with the response of its single
remote call: on success the sheet values, on `APIError` an error message and
`[]`. -/
def read_all_valuesC (resp : Except APIError Sheet) : ClientResult Sheet :=
  match resp with
  | .ok v => ⟨[Req.getAllValues], [], v⟩
  | .error _ => ⟨[Req.getAllValues], ["❌ Failed to read data from Google Sheets."], []⟩

/-- `GoogleSheetClient.add_todo` with the response of its `append_row` call:
on failure the sheet is left unchanged and a message is surfaced. -/
def add_todoC (todoItem priority dateAdded : String)
    (resp : Except APIError Unit) (sheet : Sheet) : ClientResult Sheet :=
  let row := [todoItem, priority, dateAdded, "", "Incomplete"]
  match resp with
  | .ok _ => ⟨[Req.appendRow row], [], sheet ++ [row]⟩
  | .error _ => ⟨[Req.appendRow row], ["❌ Failed to add new todo."], sheet⟩

/-- `GoogleSheetClient.update_todo` with the responses of its two remote calls
(the cell read of row `r` column 3, then the A..E range update): a failure of either call ends
the operation with the sheet unchanged and one surfaced message; the `update`
call is never issued when the `cell` read already failed. -/
def update_todoC (r : Nat) (todoItem priority dateCompleted status : String)
    (cellResp : Except APIError String) (updResp : Except APIError Unit)
    (sheet : Sheet) : ClientResult Sheet :=
  match cellResp with
  | .error _ =>
      ⟨[Req.cellRead r 3], ["⚠️ Failed to update the todo item."], sheet⟩
  | .ok dateAdded =>
      let cells := [todoItem, priority, dateAdded, dateCompleted, status]
      match updResp with
      | .ok _ =>
          ⟨[Req.cellRead r 3, Req.updateRange r cells], [],
            updateRangeAE sheet r cells⟩
      | .error _ =>
          ⟨[Req.cellRead r 3, Req.updateRange r cells],
            ["⚠️ Failed to update the todo item."], sheet⟩

/-- `GoogleSheetClient.delete_todo` with the response of its `delete_rows`
call. -/
def delete_todoC (r : Nat) (resp : Except APIError Unit) (sheet : Sheet) :
    ClientResult Sheet :=
  match resp with
  | .ok _ => ⟨[Req.deleteRows r], [], delete_todo sheet r⟩
  | .error _ => ⟨[Req.deleteRows r], ["❌ Failed to delete the todo."], sheet⟩

/-- `TodoApp.list_todos` on top of `read_all_values`: the headers/todos split
of whatever the read returned (`[]` after a failed read). -/
def list_todosC (resp : Except APIError Sheet) : List String × List Row :=
  list_todos (read_all_valuesC resp).value

/-! ### `main.py`: `CollectifySheetReader` -/

/-- `CollectifySheetReader.get_all_records` with the response of its single
remote call: the records on success, `[]` plus a surfaced message on
`APIError`. -/
def get_all_recordsC (resp : Except APIError (List Record)) :
    ClientResult (List Record) :=
  match resp with
  | .ok v => ⟨[Req.getAllRecords], [], v⟩
  | .error _ => ⟨[Req.getAllRecords], ["⚠️ Failed to load data from Google Sheet."], []⟩

/-- The default `output_mapping` of `get_filtered_tools`. -/
def defaultOutputMapping : List (String × String) :=
  [("name", "name"), ("description", "description"), ("logo_url", "logo_url"),
    ("store_link", "store_link"), ("button_name", "button_name")]

/-- The projection applied to each kept record: for every pair
`(out, src)` of the output mapping, bind `out` to `row.get(src, "")`. -/
def projectRow (mapping : List (String × String)) (row : Record) : Record :=
  mapping.map (fun p => (p.1, dictGet row p.2 ""))

/-- The list comprehension of `CollectifySheetReader.get_filtered_tools` over
an already-fetched record list: keep the rows whose `categoryField` value
equals `target` (a missing field never equals the target string), projecting
each kept row through `mapping`. -/
def get_filtered_tools (data : List Record) (target categoryField : String)
    (mapping : List (String × String)) : List Record :=
  match data with
  | [] => []
  | row :: rest =>
      if dictGetOpt row categoryField == some target then
        projectRow mapping row :: get_filtered_tools rest target categoryField mapping
      else
        get_filtered_tools rest target categoryField mapping

/-- `CollectifySheetReader.append_new_item` (success path): read the header
row (`row_values(1)`, which is `[]` on an empty sheet), build
`[item.get(header, "") for header in headers]` and append it. -/
def append_new_item (item : Record) (sheet : Sheet) : Sheet :=
  sheet ++ [(sheet.headD []).map (fun h => dictGet item h "")]

/-- `CollectifySheetReader.append_new_item` with the responses of its two
remote calls (`row_values(1)` then `append_row`): either failure surfaces one
message and leaves the sheet unchanged; `append_row` is never issued when the
header read already failed. -/
def append_new_itemC (item : Record) (rowResp : Except APIError Row)
    (appResp : Except APIError Unit) (sheet : Sheet) : ClientResult Sheet :=
  match rowResp with
  | .error _ =>
      ⟨[Req.rowValues 1], ["❌ Failed to append new item to the sheet."], sheet⟩
  | .ok headers =>
      let newRow := headers.map (fun h => dictGet item h "")
      match appResp with
      | .ok _ => ⟨[Req.rowValues 1, Req.appendRow newRow], [], sheet ++ [newRow]⟩
      | .error _ =>
          ⟨[Req.rowValues 1, Req.appendRow newRow],
            ["❌ Failed to append new item to the sheet."], sheet⟩

/-! ### Stats helpers of `todo.py` (`compute_stats`, `percent`)

Python floats are modelled as rationals and `str.casefold` as `toLower`
(they agree on the ASCII status strings involved). -/

/-- The status-column normalisation of `compute_stats` for one value:
fill a missing value with the empty string, strip surrounding whitespace,
then casefold. -/
def normStatus (v : Option String) : String :=
  ((v.getD "").trim).toLower

/-- `compute_stats`: the status column (with missing values) is filled with
`""` and stripped; `total` is its length; the casefolded values are counted
against `completed`, `in progress` and `incomplete`.  Returns
`(total, completed, in_progress, incomplete)`. -/
def compute_stats (statusCol : List (Option String)) : Nat × Nat × Nat × Nat :=
  let statuses := statusCol.map (fun v => (v.getD "").trim)
  let total := statuses.length
  let folded := statuses.map String.toLower
  let completed := folded.count "completed"
  let in_progress := folded.count "in progress"
  let incomplete := folded.count "incomplete"
  (total, completed, in_progress, incomplete)

/-- `percent(part, total)`: `part / total * 100.0` when `total` is truthy
(non-zero), else `0.0`. -/
def percent (part total : ℚ) : ℚ :=
  if total ≠ 0 then part / total * 100 else 0

/-! ### Helper lemmas -/

theorem getD_eraseIdx_of_lt {α : Type} (l : List α) (i j : Nat) (d : α)
    (h : i < j) : (l.eraseIdx i).getD (j - 1) d = l.getD j d := by
  induction l generalizing i j with
  | nil => simp [List.eraseIdx]
  | cons x xs ih =>
    cases i with
    | zero =>
      obtain ⟨j', rfl⟩ : ∃ j', j = j' + 1 := ⟨j - 1, by omega⟩
      simp
    | succ i' =>
      obtain ⟨j', rfl⟩ : ∃ j', j = j' + 1 := ⟨j - 1, by omega⟩
      obtain ⟨j'', rfl⟩ : ∃ j'', j' = j'' + 1 := ⟨j' - 1, by omega⟩
      have := ih i' (j'' + 1) (by omega)
      simpa using this

theorem getD_set_ne {α : Type} (l : List α) (i j : Nat) (a d : α)
    (h : i ≠ j) : (l.set i a).getD j d = l.getD j d := by
  simp [List.getElem?_set_ne h]

theorem getD_set_self {α : Type} (l : List α) (i : Nat) (a d : α)
    (h : i < l.length) : (l.set i a).getD i d = a := by
  simp [List.getElem?_set_self', List.getElem?_eq_getElem h]

theorem rowOptionsAux_getD (k : Nat) (todos : List Row) (i : Nat)
    (h : i < todos.length) :
    (rowOptionsAux k todos).getD i ("", 0) = (label (todos.getD i []), k + i + 2) := by
  induction todos generalizing k i with
  | nil => simp at h
  | cons t ts ih =>
    cases i with
    | zero => simp [rowOptionsAux]
    | succ i' =>
      have hi' : i' < ts.length := by simpa using h
      have := ih (k + 1) i' hi'
      simp only [rowOptionsAux, List.getD_cons_succ, this]
      congr 1
      omega

theorem filter_rowOptionsAux_not_mem (k : Nat) (todos : List Row)
    (lbl : String) (h : lbl ∉ todos.map label) :
    (rowOptionsAux k todos).filter (fun p => p.1 == lbl) = [] := by
  induction todos generalizing k with
  | nil => simp [rowOptionsAux]
  | cons t ts ih =>
    simp only [List.map_cons, List.mem_cons, not_or] at h
    obtain ⟨h1, h2⟩ := h
    have hne : (label t == lbl) = false :=
      beq_eq_false_iff_ne.mpr (fun hc => h1 hc.symm)
    simp only [rowOptionsAux, List.filter_cons, hne, Bool.false_eq_true, if_false]
    exact ih (k + 1) h2

theorem filter_rowOptionsAux_nodup (k : Nat) (todos : List Row)
    (hnd : (todos.map label).Nodup) (i : Nat) (hi : i < todos.length) :
    (rowOptionsAux k todos).filter (fun p => p.1 == label (todos.getD i [])) =
      [(label (todos.getD i []), k + i + 2)] := by
  induction todos generalizing k i with
  | nil => simp at hi
  | cons t ts ih =>
    rw [List.map_cons, List.nodup_cons] at hnd
    obtain ⟨hmem, hnd'⟩ := hnd
    cases i with
    | zero =>
      simp only [List.getD_cons_zero, rowOptionsAux, List.filter_cons,
        beq_self_eq_true, if_true]
      rw [filter_rowOptionsAux_not_mem (k + 1) ts (label t) hmem]
    | succ i' =>
      have hi' : i' < ts.length := by simpa using hi
      have hin : label (ts.getD i' []) ∈ ts.map label := by
        rw [List.getD_eq_getElem ts [] hi']
        exact List.mem_map_of_mem label (List.getElem_mem hi')
      have hne : (label t == label (ts.getD i' [])) = false :=
        beq_eq_false_iff_ne.mpr (fun hc => hmem (by rw [hc]; exact hin))
      simp only [List.getD_cons_succ, rowOptionsAux, List.filter_cons, hne,
        Bool.false_eq_true, if_false]
      rw [ih (k + 1) hnd' i' hi']
      have harith : k + 1 + i' + 2 = k + (i' + 1) + 2 := by omega
      rw [harith]

theorem countP_add_three {α : Type} (l : List α) (p q r : α → Bool)
    (hpq : ∀ x, p x = true → q x = false)
    (hpr : ∀ x, p x = true → r x = false)
    (hqr : ∀ x, q x = true → r x = false) :
    l.countP p + l.countP q + l.countP r =
      l.countP (fun x => p x || q x || r x) := by
  induction l with
  | nil => simp
  | cons a t ih =>
    simp only [List.countP_cons]
    by_cases hp : p a = true
    · simp only [hp, hpq a hp, hpr a hp, Bool.true_or, if_true,
        Bool.false_eq_true, if_false]
      omega
    · have hp' : p a = false := by
        cases hpb : p a
        · rfl
        · exact absurd hpb hp
      by_cases hq : q a = true
      · simp only [hp', hq, hqr a hq, Bool.false_or, Bool.true_or, if_true,
          Bool.false_eq_true, if_false]
        omega
      · have hq' : q a = false := by
          cases hqb : q a
          · rfl
          · exact absurd hqb hq
        by_cases hr : r a = true
        · simp only [hp', hq', hr, Bool.false_or, if_true,
            Bool.false_eq_true, if_false]
          omega
        · have hr' : r a = false := by
            cases hrb : r a
            · rfl
            · exact absurd hrb hr
          simp only [hp', hq', hr', Bool.false_or, Bool.false_eq_true, if_false]
          omega

/-! ### Claim theorems -/

/-- C4: for every todo text and priority, `create_todo` / `add_todo` appends
exactly one five-field row `[description, priority, date-added,
date-completed, status]` in which the date-added field is the creation date,
the date-completed field is empty, and the status field is the string
Incomplete; every pre-existing row is left in place. -/
theorem C4_created_task_shape (sheet : Sheet) (todoItem priority dateAdded : String) :
    create_todo sheet todoItem priority dateAdded =
      sheet ++ [[todoItem, priority, dateAdded, "", "Incomplete"]] ∧
    (create_todo sheet todoItem priority dateAdded).length = sheet.length + 1 ∧
    rowAt (create_todo sheet todoItem priority dateAdded) (sheet.length + 1) =
      [todoItem, priority, dateAdded, "", "Incomplete"] ∧
    (rowAt (create_todo sheet todoItem priority dateAdded) (sheet.length + 1)).length = 5 ∧
    (rowAt (create_todo sheet todoItem priority dateAdded) (sheet.length + 1)).getD 2 "" =
      dateAdded ∧
    (rowAt (create_todo sheet todoItem priority dateAdded) (sheet.length + 1)).getD 3 "" = "" ∧
    (rowAt (create_todo sheet todoItem priority dateAdded) (sheet.length + 1)).getD 4 "" =
      "Incomplete" := by
  have hrow : rowAt (create_todo sheet todoItem priority dateAdded) (sheet.length + 1) =
      [todoItem, priority, dateAdded, "", "Incomplete"] := by
    simp [create_todo, add_todo, rowAt]
  exact ⟨rfl, by simp [create_todo, add_todo], hrow, by simp [hrow], by simp [hrow],
    by simp [hrow], by simp [hrow]⟩

/-- C5: every read, append, update or delete operation catches a failure of
its remote call at the call site, surfaces exactly one user-visible message,
returns/keeps the fallback state (the operation simply ends, with no
recovery), issues each remote call at most once (no retry), and carries no
structured error code in its outcome. -/
theorem C5_error_handling (e : APIError) (sheet : Sheet)
    (todoItem priority dateAdded dateCompleted status da : String) (r : Nat)
    (item : Record) (headers : Row) (updResp appResp : Except APIError Unit) :
    read_all_valuesC (.error e) =
      ⟨[Req.getAllValues], ["❌ Failed to read data from Google Sheets."], []⟩ ∧
    add_todoC todoItem priority dateAdded (.error e) sheet =
      ⟨[Req.appendRow [todoItem, priority, dateAdded, "", "Incomplete"]],
        ["❌ Failed to add new todo."], sheet⟩ ∧
    update_todoC r todoItem priority dateCompleted status (.error e) updResp sheet =
      ⟨[Req.cellRead r 3], ["⚠️ Failed to update the todo item."], sheet⟩ ∧
    update_todoC r todoItem priority dateCompleted status (.ok da) (.error e) sheet =
      ⟨[Req.cellRead r 3,
          Req.updateRange r [todoItem, priority, da, dateCompleted, status]],
        ["⚠️ Failed to update the todo item."], sheet⟩ ∧
    delete_todoC r (.error e) sheet =
      ⟨[Req.deleteRows r], ["❌ Failed to delete the todo."], sheet⟩ ∧
    get_all_recordsC (.error e) =
      ⟨[Req.getAllRecords], ["⚠️ Failed to load data from Google Sheet."], []⟩ ∧
    append_new_itemC item (.error e) appResp sheet =
      ⟨[Req.rowValues 1], ["❌ Failed to append new item to the sheet."], sheet⟩ ∧
    append_new_itemC item (.ok headers) (.error e) sheet =
      ⟨[Req.rowValues 1, Req.appendRow (headers.map (fun h => dictGet item h ""))],
        ["❌ Failed to append new item to the sheet."], sheet⟩ :=
  ⟨rfl, rfl, rfl, rfl, rfl, rfl, rfl, rfl⟩

/-- C8: a remote read that fails with an APIError makes `get_all_records`
and `read_all_values` return the empty list, and `list_todos` then returns
empty headers and empty todos — a failed read never yields partial data. -/
theorem C8_failed_read_empty (e : APIError) :
    (get_all_recordsC (.error e)).value = [] ∧
    (read_all_valuesC (.error e)).value = [] ∧
    list_todosC (.error e) = ([], []) :=
  ⟨rfl, rfl, rfl⟩

/-- C9: `percent` is total and guarded: it returns `part / total * 100` when
the denominator is non-zero and `0` when the denominator is zero, so the
progress metrics are defined even for an empty task list. -/
theorem C9_percent_guarded (part total : ℚ) :
    (total ≠ 0 → percent part total = part / total * 100) ∧
    (total = 0 → percent part total = 0) := by
  constructor
  · intro h
    simp [percent, h]
  · intro h
    simp [percent, h]

/-- Witness for C9 at the concrete inputs 1/2 and 1/0. -/
theorem C9_percent_guarded_witness :
    percent 1 2 = 1 / 2 * 100 ∧ percent 1 0 = 0 :=
  ⟨(C9_percent_guarded 1 2).1 (by norm_num), (C9_percent_guarded 1 0).2 rfl⟩

/-- C1: for a sheet of one header row followed by the data rows, the
Update/Delete selection maps the i-th data row (0-based) to absolute
spreadsheet row `i + 2`; `remove_todo` deletes exactly that absolute row and
`modify_todo` touches no other row; consequently, after a deletion at data
index `i`, every item that was at a later absolute row sits one absolute row
lower. -/
theorem C1_positional_identity (headers : Row) (todos : List Row) :
    (todos ≠ [] → list_todos (headers :: todos) = (headers, todos)) ∧
    (∀ i, i < todos.length →
      (rowOptions todos).getD i ("", 0) = (label (todos.getD i []), i + 2)) ∧
    (∀ i, remove_todo (headers :: todos) (i + 2) = headers :: todos.eraseIdx i) ∧
    (∀ i todoItem priority dateCompleted status j, 1 ≤ j → j ≠ i + 2 →
      rowAt (modify_todo (headers :: todos) (i + 2)
        todoItem priority dateCompleted status) j = rowAt (headers :: todos) j) ∧
    (∀ i j, i < j →
      rowAt (remove_todo (headers :: todos) (i + 2)) (j + 1) =
        rowAt (headers :: todos) (j + 2)) := by
  refine ⟨?_, ?_, ?_, ?_, ?_⟩
  · intro h
    have : 0 < todos.length := List.length_pos.mpr h
    simp [list_todos, this]
  · intro i hi
    have := rowOptionsAux_getD 0 todos i hi
    simpa using this
  · intro i
    simp [remove_todo, delete_todo]
  · intro i todoItem priority dateCompleted status j h1 h2
    have hne : (i + 2) - 1 ≠ j - 1 := by omega
    simp only [modify_todo, update_todo, updateRangeAE, rowAt]
    exact getD_set_ne _ _ _ _ _ hne
  · intro i j hij
    have h1 : remove_todo (headers :: todos) (i + 2) =
        (headers :: todos).eraseIdx (i + 1) := by
      simp [remove_todo, delete_todo]
    rw [h1]
    show ((headers :: todos).eraseIdx (i + 1)).getD ((j + 1) - 1) [] =
      (headers :: todos).getD ((j + 2) - 1) []
    have := getD_eraseIdx_of_lt (headers :: todos) (i + 1) (j + 1)
      ([] : Row) (by omega)
    simpa using this

/-- Witness for C1 on a concrete three-item list: deleting the first item
(absolute row 2) moves the item that was at absolute row 4 to absolute
row 3, and an update of absolute row 2 leaves absolute row 3 unchanged. -/
theorem C1_positional_identity_witness :
    list_todos (["Todo", "Priority", "Added", "Done", "Status"] ::
        [["a", "Low", "d1", "", "Incomplete"], ["b", "High", "d2", "", "Completed"],
          ["c", "Low", "d3", "", "Incomplete"]]) =
      (["Todo", "Priority", "Added", "Done", "Status"],
        [["a", "Low", "d1", "", "Incomplete"], ["b", "High", "d2", "", "Completed"],
          ["c", "Low", "d3", "", "Incomplete"]]) ∧
    (rowOptions [["a", "Low", "d1", "", "Incomplete"], ["b", "High", "d2", "", "Completed"],
        ["c", "Low", "d3", "", "Incomplete"]]).getD 1 ("", 0) =
      (label ([["a", "Low", "d1", "", "Incomplete"], ["b", "High", "d2", "", "Completed"],
        ["c", "Low", "d3", "", "Incomplete"]].getD 1 []), 1 + 2) ∧
    rowAt (modify_todo (["Todo", "Priority", "Added", "Done", "Status"] ::
        [["a", "Low", "d1", "", "Incomplete"], ["b", "High", "d2", "", "Completed"],
          ["c", "Low", "d3", "", "Incomplete"]]) (0 + 2) "x" "High" "dc" "Completed") 3 =
      rowAt (["Todo", "Priority", "Added", "Done", "Status"] ::
        [["a", "Low", "d1", "", "Incomplete"], ["b", "High", "d2", "", "Completed"],
          ["c", "Low", "d3", "", "Incomplete"]]) 3 ∧
    rowAt (remove_todo (["Todo", "Priority", "Added", "Done", "Status"] ::
        [["a", "Low", "d1", "", "Incomplete"], ["b", "High", "d2", "", "Completed"],
          ["c", "Low", "d3", "", "Incomplete"]]) (0 + 2)) (1 + 1) =
      rowAt (["Todo", "Priority", "Added", "Done", "Status"] ::
        [["a", "Low", "d1", "", "Incomplete"], ["b", "High", "d2", "", "Completed"],
          ["c", "Low", "d3", "", "Incomplete"]]) (1 + 2) := by
  have H := C1_positional_identity (["Todo", "Priority", "Added", "Done", "Status"])
    [["a", "Low", "d1", "", "Incomplete"], ["b", "High", "d2", "", "Completed"],
      ["c", "Low", "d3", "", "Incomplete"]]
  exact ⟨H.1 (by decide), H.2.1 1 (by decide),
    H.2.2.2.1 0 "x" "High" "dc" "Completed" 3 (by decide) (by decide),
    H.2.2.2.2 0 1 (by decide)⟩

/-- C2 counterexample: two distinct tasks that share description and status
receive the same display label, and that label locates absolute row 3 — the
row of the LAST such task — so it does not locate the row of the first task
it was also built from.  The claim that distinct tasks receive distinct
labels, each locating the row of the task it was built from, is false. -/
theorem C2_label_collision_counterexample :
    ([["a", "Low", "d1", "", "Incomplete"],
        ["a", "High", "d2", "", "Incomplete"]] : List Row).getD 0 [] ≠
      ([["a", "Low", "d1", "", "Incomplete"],
        ["a", "High", "d2", "", "Incomplete"]] : List Row).getD 1 [] ∧
    label (([["a", "Low", "d1", "", "Incomplete"],
        ["a", "High", "d2", "", "Incomplete"]] : List Row).getD 0 []) =
      label (([["a", "Low", "d1", "", "Incomplete"],
        ["a", "High", "d2", "", "Incomplete"]] : List Row).getD 1 []) ∧
    selectRow [["a", "Low", "d1", "", "Incomplete"], ["a", "High", "d2", "", "Incomplete"]]
        (label (([["a", "Low", "d1", "", "Incomplete"],
          ["a", "High", "d2", "", "Incomplete"]] : List Row).getD 0 [])) = some 3 ∧
    selectRow [["a", "Low", "d1", "", "Incomplete"], ["a", "High", "d2", "", "Incomplete"]]
        (label (([["a", "Low", "d1", "", "Incomplete"],
          ["a", "High", "d2", "", "Incomplete"]] : List Row).getD 0 [])) ≠ some 2 := by
  decide

/-- C2 (amended): the display-label mapping uniquely locates every listed
task only when the labels are pairwise distinct; under that hypothesis the
label of the task at data index `i` locates absolute row `i + 2`, the row it
was built from.  (When several rows share a label, the dict keeps only the
last, as the counterexample shows.) -/
theorem C2_unique_labels_locate (todos : List Row)
    (hnd : (todos.map label).Nodup) (i : Nat) (hi : i < todos.length) :
    selectRow todos (label (todos.getD i [])) = some (i + 2) := by
  unfold selectRow rowOptions
  rw [filter_rowOptionsAux_nodup 0 todos hnd i hi]
  simp

/-- Witness for the amended C2 on a concrete two-item list with distinct
labels. -/
theorem C2_unique_labels_locate_witness :
    selectRow [["a", "Low", "d1", "", "Incomplete"], ["b", "High", "d2", "", "Completed"]]
        (label (([["a", "Low", "d1", "", "Incomplete"],
          ["b", "High", "d2", "", "Completed"]] : List Row).getD 1 [])) = some (1 + 2) :=
  C2_unique_labels_locate
    [["a", "Low", "d1", "", "Incomplete"], ["b", "High", "d2", "", "Completed"]]
    (by decide) 1 (by decide)

theorem getD_append_five (a b c d e : String) (rest : Row) (k : Nat) :
    (([a, b, c, d, e] : Row) ++ rest).getD (k + 5) "" = rest.getD k "" := by
  show (a :: b :: c :: d :: e :: rest).getD (k + 5) "" = rest.getD k ""
  rfl

theorem getD_drop (l : Row) (n k : Nat) :
    (l.drop n).getD k "" = l.getD (n + k) "" := by
  simp [List.getD_eq_getElem?_getD, List.getElem?_drop]

/-- C3: for a valid row index, `update_todo` / `modify_todo` keep the sheet
length, change no row other than row `r`, rewrite columns A..E of row `r`
with the pre-existing date-added value (column 3) written back unchanged,
and leave every cell of row `r` beyond column E unchanged — so the
date-added field set at creation is never altered by updates. -/
theorem C3_update_frame (sheet : Sheet) (r : Nat)
    (todoItem priority dateCompleted status : String)
    (h1 : 1 ≤ r) (h2 : r ≤ sheet.length) :
    (modify_todo sheet r todoItem priority dateCompleted status).length = sheet.length ∧
    (∀ j, 1 ≤ j → j ≠ r →
      rowAt (modify_todo sheet r todoItem priority dateCompleted status) j =
        rowAt sheet j) ∧
    rowAt (modify_todo sheet r todoItem priority dateCompleted status) r =
      [todoItem, priority, cellValue sheet r 3, dateCompleted, status] ++
        (rowAt sheet r).drop 5 ∧
    cellValue (modify_todo sheet r todoItem priority dateCompleted status) r 3 =
      cellValue sheet r 3 ∧
    (∀ k, 5 ≤ k →
      (rowAt (modify_todo sheet r todoItem priority dateCompleted status) r).getD k "" =
        (rowAt sheet r).getD k "") := by
  have hidx : r - 1 < sheet.length := by omega
  have hrow : rowAt (modify_todo sheet r todoItem priority dateCompleted status) r =
      [todoItem, priority, cellValue sheet r 3, dateCompleted, status] ++
        (rowAt sheet r).drop 5 := by
    simp only [modify_todo, update_todo, updateRangeAE, rowAt]
    exact getD_set_self _ _ _ _ hidx
  refine ⟨?_, ?_, hrow, ?_, ?_⟩
  · simp [modify_todo, update_todo, updateRangeAE]
  · intro j hj1 hj2
    have hne : r - 1 ≠ j - 1 := by omega
    simp only [modify_todo, update_todo, updateRangeAE, rowAt]
    exact getD_set_ne _ _ _ _ _ hne
  · unfold cellValue
    rw [hrow]
    rfl
  · intro k hk
    obtain ⟨k', rfl⟩ : ∃ k', k = k' + 5 := ⟨k - 5, by omega⟩
    rw [hrow, getD_append_five, getD_drop, Nat.add_comm 5 k']

/-- Witness for C3 on a concrete two-row sheet whose data row has a sixth
cell: updating absolute row 2 leaves row 1 and the sixth cell of row 2
unchanged. -/
theorem C3_update_frame_witness :
    rowAt (modify_todo [["h1", "h2", "h3", "h4", "h5"],
        ["a", "Low", "d1", "", "Incomplete", "extra"]] 2 "x" "High" "dc" "Completed") 1 =
      rowAt [["h1", "h2", "h3", "h4", "h5"],
        ["a", "Low", "d1", "", "Incomplete", "extra"]] 1 ∧
    (rowAt (modify_todo [["h1", "h2", "h3", "h4", "h5"],
        ["a", "Low", "d1", "", "Incomplete", "extra"]] 2 "x" "High" "dc" "Completed") 2).getD 5 "" =
      (rowAt [["h1", "h2", "h3", "h4", "h5"],
        ["a", "Low", "d1", "", "Incomplete", "extra"]] 2).getD 5 "" := by
  have H := C3_update_frame [["h1", "h2", "h3", "h4", "h5"],
    ["a", "Low", "d1", "", "Incomplete", "extra"]] 2 "x" "High" "dc" "Completed"
    (by decide) (by decide)
  exact ⟨H.2.1 1 (by decide) (by decide), H.2.2.2.2 5 (by decide)⟩

/-- C6: over any fetched record list, `get_filtered_tools` returns, in the
original order, exactly the records whose category field equals the target
(a record with the field missing is never kept), each projected to the
output-mapping keys, with the empty string substituted for a missing source
field. -/
theorem C6_filtered_tools (data : List Record) (target categoryField : String)
    (mapping : List (String × String)) :
    get_filtered_tools data target categoryField mapping =
      (data.filter (fun row => dictGetOpt row categoryField == some target)).map
        (projectRow mapping) ∧
    (∀ row ∈ get_filtered_tools data target categoryField mapping,
      row.map Prod.fst = mapping.map Prod.fst) ∧
    (∀ (row : Record) (src : String), dictGetOpt row src = none →
      dictGet row src "" = "") := by
  have hmain : get_filtered_tools data target categoryField mapping =
      (data.filter (fun row => dictGetOpt row categoryField == some target)).map
        (projectRow mapping) := by
    induction data with
    | nil => rfl
    | cons row rest ih =>
      simp only [get_filtered_tools, List.filter_cons]
      by_cases h : (dictGetOpt row categoryField == some target) = true
      · simp [h, ih]
      · have h' : (dictGetOpt row categoryField == some target) = false := by
          cases hb : (dictGetOpt row categoryField == some target)
          · rfl
          · exact absurd hb h
        simp [h', ih]
  refine ⟨hmain, ?_, ?_⟩
  · intro row hrow
    rw [hmain] at hrow
    obtain ⟨row0, _, rfl⟩ := List.mem_map.mp hrow
    simp [projectRow, List.map_map, Function.comp]
  · intro row src hnone
    unfold dictGetOpt at hnone
    unfold dictGet
    cases hf : row.find? (fun p => p.1 == src) with
    | none => rfl
    | some p =>
      rw [hf] at hnone
      simp at hnone

/-- Witness for C6: a missing source field projects to the empty string, and
a kept record carries exactly the output-mapping keys. -/
theorem C6_filtered_tools_witness :
    dictGet [("a", "b")] "z" "" = "" ∧
    (projectRow defaultOutputMapping [("category", "Python"), ("name", "X")]).map Prod.fst =
      defaultOutputMapping.map Prod.fst := by
  have H := C6_filtered_tools [[("category", "Python"), ("name", "X")]] "Python"
    "category" defaultOutputMapping
  refine ⟨H.2.2 [("a", "b")] "z" rfl, ?_⟩
  apply H.2.1
  have hev : get_filtered_tools [[("category", "Python"), ("name", "X")]] "Python"
      "category" defaultOutputMapping =
      [projectRow defaultOutputMapping [("category", "Python"), ("name", "X")]] := rfl
  rw [hev]
  exact List.mem_singleton.mpr rfl

/-- C7: `append_new_item` appends exactly one row, ordered by the header row
(row 1) of the worksheet: the cell under each header is the item value at
that header, or the empty string when the item lacks the header; item keys
that are not headers do not influence the appended row. -/
theorem C7_append_follows_headers (item : Record) (sheet : Sheet) :
    append_new_item item sheet =
      sheet ++ [(sheet.headD []).map (fun h => dictGet item h "")] ∧
    (append_new_item item sheet).length = sheet.length + 1 ∧
    rowAt (append_new_item item sheet) (sheet.length + 1) =
      (sheet.headD []).map (fun h => dictGet item h "") ∧
    (rowAt (append_new_item item sheet) (sheet.length + 1)).length =
      (sheet.headD []).length ∧
    (∀ i, i < (sheet.headD []).length →
      (rowAt (append_new_item item sheet) (sheet.length + 1)).getD i "" =
        dictGet item ((sheet.headD []).getD i "") "") ∧
    (∀ item2 : Record,
      (∀ h ∈ sheet.headD [], dictGet item h "" = dictGet item2 h "") →
      append_new_item item sheet = append_new_item item2 sheet) := by
  have hrow : rowAt (append_new_item item sheet) (sheet.length + 1) =
      (sheet.headD []).map (fun h => dictGet item h "") := by
    simp [append_new_item, rowAt]
  refine ⟨rfl, by simp [append_new_item], hrow, by rw [hrow]; simp, ?_, ?_⟩
  · intro i hi
    rw [hrow, List.getD_eq_getElem _ _ (by simpa using hi), List.getElem_map,
      List.getD_eq_getElem _ _ hi]
  · intro item2 hsame
    unfold append_new_item
    congr 2
    exact List.map_congr_left hsame

/-- Witness for C7 on a one-header sheet: the appended cell under the header
is the item value there, and an extra non-header key does not change the
result. -/
theorem C7_append_follows_headers_witness :
    (rowAt (append_new_item [("name", "N"), ("extra", "E")] [["name"]]) 2).getD 0 "" =
      dictGet [("name", "N"), ("extra", "E")]
        ((([["name"]] : Sheet).headD []).getD 0 "") "" ∧
    append_new_item [("name", "N"), ("extra", "E")] [["name"]] =
      append_new_item [("name", "N")] [["name"]] := by
  have H := C7_append_follows_headers [("name", "N"), ("extra", "E")] [["name"]]
  refine ⟨H.2.2.2.2.1 0 (by decide), H.2.2.2.2.2 [("name", "N")] ?_⟩
  intro h hh
  have : h = "name" := by simpa using hh
  subst this
  rfl

/-- C10: `compute_stats` counts statuses after filling missing values,
stripping surrounding whitespace and casefolding; the three counts never
exceed the total, with equality exactly when every status value normalises
to completed, in progress, or incomplete. -/
theorem C10_compute_stats_counts (col : List (Option String)) :
    (compute_stats col).2.1 = col.countP (fun v => normStatus v == "completed") ∧
    (compute_stats col).2.2.1 = col.countP (fun v => normStatus v == "in progress") ∧
    (compute_stats col).2.2.2 = col.countP (fun v => normStatus v == "incomplete") ∧
    (compute_stats col).2.1 + (compute_stats col).2.2.1 + (compute_stats col).2.2.2 ≤
      (compute_stats col).1 ∧
    ((compute_stats col).2.1 + (compute_stats col).2.2.1 + (compute_stats col).2.2.2 =
        (compute_stats col).1 ↔
      ∀ v ∈ col, normStatus v = "completed" ∨ normStatus v = "in progress" ∨
        normStatus v = "incomplete") := by
  have heq : compute_stats col =
      (col.length,
        col.countP (fun v => normStatus v == "completed"),
        col.countP (fun v => normStatus v == "in progress"),
        col.countP (fun v => normStatus v == "incomplete")) := by
    simp only [compute_stats, List.map_map, List.count_eq_countP,
      List.countP_map, List.length_map, normStatus]
    rfl
  have hpq : ∀ v : Option String, (normStatus v == "completed") = true →
      (normStatus v == "in progress") = false := by
    intro v h
    rw [beq_iff_eq] at h
    rw [h]
    decide
  have hpr : ∀ v : Option String, (normStatus v == "completed") = true →
      (normStatus v == "incomplete") = false := by
    intro v h
    rw [beq_iff_eq] at h
    rw [h]
    decide
  have hqr : ∀ v : Option String, (normStatus v == "in progress") = true →
      (normStatus v == "incomplete") = false := by
    intro v h
    rw [beq_iff_eq] at h
    rw [h]
    decide
  have hsum := countP_add_three col _ _ _ hpq hpr hqr
  rw [heq]
  refine ⟨rfl, rfl, rfl, ?_, ?_⟩
  · calc col.countP (fun v => normStatus v == "completed") +
        col.countP (fun v => normStatus v == "in progress") +
        col.countP (fun v => normStatus v == "incomplete") =
        col.countP (fun v => (normStatus v == "completed") ||
          (normStatus v == "in progress") || (normStatus v == "incomplete")) := hsum
      _ ≤ col.length := List.countP_le_length _
  · rw [hsum, List.countP_eq_length]
    constructor
    · intro hall v hv
      have hb := hall v hv
      simp only [Bool.or_eq_true, beq_iff_eq] at hb
      tauto
    · intro hall v hv
      have hb := hall v hv
      simp only [Bool.or_eq_true, beq_iff_eq]
      tauto

/-- Witness for C10 on a concrete column with mixed case, whitespace, a
missing value and an unrecognised status. -/
theorem C10_compute_stats_counts_witness :
    (compute_stats [some "Completed", some " in progress ", some "INCOMPLETE",
        some "weird", none]).2.1 +
      (compute_stats [some "Completed", some " in progress ", some "INCOMPLETE",
        some "weird", none]).2.2.1 +
      (compute_stats [some "Completed", some " in progress ", some "INCOMPLETE",
        some "weird", none]).2.2.2 ≤
      (compute_stats [some "Completed", some " in progress ", some "INCOMPLETE",
        some "weird", none]).1 :=
  (C10_compute_stats_counts [some "Completed", some " in progress ",
    some "INCOMPLETE", some "weird", none]).2.2.2.1

end Collectify
